import Mathlib

/-!
Shallow embedding of the ETL job in `etl.py` (Data-Lake-with-AWS-and-Spark).

Two layers:

* A record/table layer: rows are structures, tables are lists, and the
  dataframe operations the script uses (`filter`, `select`, `dropDuplicates`)
  are modelled as `List.filter`, `List.map` and `List.dedup`.

* A statement layer: each Python statement of `process_song_data`,
  `process_log_data` and `main` is modelled by the global/local names it
  evaluates, the names it binds, the functions it invokes and the parquet
  destination it writes.  A runner executes the statements in order and halts
  at the first statement that evaluates a name not bound in the current
  environment (Python's NameError), recording which parquet destinations were
  actually written before the halt.
-/

/-- An activity-log record, with the fields of the log JSON that `etl.py`
references (`df.page`, `df.ts`, `df.artist`, `df.song` and the columns named
in the `users` and `songplays` projections). -/
structure LogRow where
  artist : String
  firstName : String
  gender : String
  lastName : String
  level : String
  location : String
  page : String
  sessionId : Nat
  song : String
  ts : Int
  userAgent : String
  userId : String
deriving DecidableEq

/-- A song-metadata record, with the fields `etl.py` selects in
`process_song_data` (lines 48 and 61). -/
structure SongRow where
  song_id : String
  title : String
  artist_id : String
  year : Int
  duration : String
  artist_name : String
  artist_location : String
  artist_latitude : String
  artist_longitude : String
deriving DecidableEq

/-- Row of the songs table: `df.select('song_id','title','artist_id','year',
'duration')` (line 48). -/
structure SongsRow where
  song_id : String
  title : String
  artist_id : String
  year : Int
  duration : String
deriving DecidableEq

/-- Row of the artists table: `df.select('artist_id', 'artist_name',
'artist_location','artist_latitude', 'artist_longitude')` (line 61). -/
structure ArtistsRow where
  artist_id : String
  artist_name : String
  artist_location : String
  artist_latitude : String
  artist_longitude : String
deriving DecidableEq

/-- Row of the users table: `df.select('userId', 'firstName', 'lastName',
'gender', 'level')` (line 97). -/
structure UsersRow where
  userId : String
  firstName : String
  lastName : String
  gender : String
  level : String
deriving DecidableEq

/-- The projection of line 48. -/
def songsProj (r : SongRow) : SongsRow :=
  ⟨r.song_id, r.title, r.artist_id, r.year, r.duration⟩

/-- The projection of line 61. -/
def artistsProj (r : SongRow) : ArtistsRow :=
  ⟨r.artist_id, r.artist_name, r.artist_location, r.artist_latitude, r.artist_longitude⟩

/-- The projection of line 97. -/
def usersProj (r : LogRow) : UsersRow :=
  ⟨r.userId, r.firstName, r.lastName, r.gender, r.level⟩

/-- Line 48: `songs_table = df.select(...).dropDuplicates()`. -/
def songs_table (df : List SongRow) : List SongsRow :=
  (df.map songsProj).dedup

/-- Line 61: `artists_table = df.select(...).dropDuplicates()`. -/
def artists_table (df : List SongRow) : List ArtistsRow :=
  (df.map artistsProj).dedup

/-- Line 94: `df = df.filter(df.page == 'NextSong')`. -/
def filterNextSong (df : List LogRow) : List LogRow :=
  df.filter (fun r => r.page == "NextSong")

/-- Line 97 applied to the filtered dataframe of line 94:
`users_table = df.select('userId','firstName','lastName','gender','level').dropDuplicates()`. -/
def users_table (logs : List LogRow) : List UsersRow :=
  ((filterNextSong logs).map usersProj).dedup

/-- The dataframe value bound to `df` in `process_song_data` and the two
tables derived from it, as a function of the `input_data` argument.  Line 42
binds `song_data` from `input_data` but line 45 reads from the fixed literal
path `'song_data'`; the bound glob is never used. -/
def process_song_data_tables (readJson : String → List SongRow) (input_data : String) :
    List SongsRow × List ArtistsRow :=
  let song_data := input_data ++ "song_data/*/*/*.json"
  let df := readJson "song_data"
  (songs_table df, artists_table df)

/-! ### Output-store model for the parquet writes -/

/-- The output location: a map from destination path to the table last
written there, `none` when nothing was ever written. -/
def Store (τ : Type) : Type := String → Option τ

/-- A parquet write in `'overwrite'` mode: the destination's prior contents
are replaced entirely. -/
def overwriteWrite {τ : Type} (s : Store τ) (p : String) (t : τ) : Store τ :=
  fun q => if q = p then some t else s q

/-- A `<df>.write...parquet(dest, mode)` call appearing in `etl.py`. -/
structure WriteCall where
  dest : String
  partitionBy : List String
  mode : String
deriving DecidableEq

/-- All five parquet write calls of `etl.py`, in source order
(lines 58, 68, 103, 129, 155). -/
def sourceWriteCalls : List WriteCall :=
  [⟨"songs_table.parquet", ["year", "artist_id"], "overwrite"⟩,
   ⟨"artists_table.parquet", [], "overwrite"⟩,
   ⟨"users_table.parquet", [], "overwrite"⟩,
   ⟨"time_table.parquet", [], "overwrite"⟩,
   ⟨"songplays_table.parquet", ["year", "month"], "overwrite"⟩]

/-- One run's worth of writes: the five tables written in source order to
their five destinations, each in overwrite mode. -/
def runWrites {τ : Type} (t1 t2 t3 t4 t5 : τ) (s : Store τ) : Store τ :=
  overwriteWrite
    (overwriteWrite
      (overwriteWrite
        (overwriteWrite
          (overwriteWrite s "songs_table.parquet" t1)
          "artists_table.parquet" t2)
        "users_table.parquet" t3)
      "time_table.parquet" t4)
    "songplays_table.parquet" t5

/-! ### Statement-level execution model -/

/-- A Python statement, abstracted to the names it evaluates (in evaluation
order), the names it binds, the functions it calls, and the parquet
destination it writes, if any. -/
structure Stmt where
  evals : List String
  binds : List String
  invokes : List String
  writesTable : Option String
deriving DecidableEq

/-- The first name of `names` that is not bound in `env` — the name a
NameError would report, `none` when all resolve. -/
def firstUnbound (env : List String) (names : List String) : Option String :=
  names.find? (fun n => !(env.contains n))

/-- Result of running a statement list: `halt` is `some (i, n)` when
statement `i` failed to resolve name `n`; `writes` and `called` collect the
parquet destinations written and the functions invoked before the halt. -/
structure RunResult where
  halt : Option (Nat × String)
  writes : List String
  called : List String
deriving DecidableEq

/-- Run statements in order from environment `env`, numbering them from `i`.
A statement whose evaluated names all resolve performs its writes and calls
and extends the environment with its bindings; the first statement with an
unresolved name halts the run (Python raises NameError and the function
aborts). -/
def runStmts (env : List String) (i : Nat) : List Stmt → RunResult
  | [] => ⟨none, [], []⟩
  | s :: rest =>
    match firstUnbound env s.evals with
    | some n => ⟨some (i, n), [], []⟩
    | none =>
      let r := runStmts (env ++ s.binds) (i + 1) rest
      ⟨r.halt, s.writesTable.toList ++ r.writes, s.invokes ++ r.called⟩

/-- The module-level names bound in `etl.py` when its functions run: the
imports of lines 1–6 and the module bindings.  Note that `dayofweek` and
`monotonically_increasing_id` are not imported. -/
def moduleEnv : List String :=
  ["configparser", "datetime", "os", "SparkSession", "udf", "col",
   "year", "month", "dayofmonth", "hour", "weekofyear", "date_format",
   "config", "create_spark_session", "process_song_data", "process_log_data",
   "main"]

/-- The statements of `process_song_data` (lines 42–68), in order. -/
def processSongDataStmts : List Stmt :=
  [⟨["input_data"], ["song_data"], [], none⟩,
   ⟨["spark"], ["df"], [], none⟩,
   ⟨["df"], ["songs_table"], [], none⟩,
   ⟨["songs_table"], [], [], none⟩,
   ⟨["songs_tables"], [], [], none⟩,
   ⟨["songs_table"], [], [], none⟩,
   ⟨["songs_table", "os", "output_data"], [], [], some "songs_table.parquet"⟩,
   ⟨["df"], ["artists_table"], [], none⟩,
   ⟨["artists_table"], [], [], none⟩,
   ⟨["artist_table"], [], [], none⟩,
   ⟨["artists_table", "os", "output_data"], [], [], some "artists_table.parquet"⟩]

/-- The statement of lines 137–148 building `songplays_table`: it evaluates
`join_table`, `col`, `year`, `month` and `monotonically_increasing_id`. -/
def songplaysSelectStmt : Stmt :=
  ⟨["join_table", "col", "year", "month", "monotonically_increasing_id"],
   ["songplays_table"], [], none⟩

/-- The statements of `process_log_data` (lines 88–155), in order. -/
def processLogDataStmts : List Stmt :=
  [⟨["input_data"], ["log_data"], [], none⟩,
   ⟨["spark", "log_data"], ["df"], [], none⟩,
   ⟨["df"], ["df"], [], none⟩,
   ⟨["df"], ["users_table"], [], none⟩,
   ⟨["users_table"], [], [], none⟩,
   ⟨["users_table"], [], [], none⟩,
   ⟨["users_table", "os", "output"], [], [], some "users_table.parquet"⟩,
   ⟨["udf"], ["get_timestamp"], [], none⟩,
   ⟨["df", "get_timestamp"], ["df"], [], none⟩,
   ⟨["udf", "datetime"], ["get_datetime"], [], none⟩,
   ⟨["df", "get_datetime"], ["df"], [], none⟩,
   ⟨["df", "hour", "dayofmonth", "weekofyear", "month", "year", "dayofweek"],
    ["time_table"], [], none⟩,
   ⟨["time_table"], [], [], none⟩,
   ⟨["time_table"], [], [], none⟩,
   ⟨["time_table", "os", "output"], [], [], some "time_table.parquet"⟩,
   ⟨["input_data"], ["song_df"], [], none⟩,
   ⟨["df", "song_df", "col"], ["join_table"], [], none⟩,
   songplaysSelectStmt,
   ⟨["songplays_table"], [], [], none⟩,
   ⟨["songplays_table"], [], [], none⟩,
   ⟨["songplays_table", "os", "output_data"], [], [], some "songplays_table.parquet"⟩]

/-- The statements of `main` (lines 158–164): the call to
`process_song_data` on line 163 is commented out. -/
def mainStmts : List Stmt :=
  [⟨["create_spark_session"], ["spark"], ["create_spark_session"], none⟩,
   ⟨[], ["input_data"], [], none⟩,
   ⟨["config"], ["output_data"], [], none⟩,
   ⟨["process_log_data", "spark", "input_data", "output_data"], [],
    ["process_log_data"], none⟩]

/-- Running `process_song_data` (its parameters bound on entry). -/
def processSongDataRun : RunResult :=
  runStmts (moduleEnv ++ ["spark", "input_data", "output_data"]) 0 processSongDataStmts

/-- Running `process_log_data` (its parameters bound on entry). -/
def processLogDataRun : RunResult :=
  runStmts (moduleEnv ++ ["spark", "input_data", "output_data"]) 0 processLogDataStmts

/-- Running `main`. -/
def mainRun : RunResult :=
  runStmts moduleEnv 0 mainStmts

/-- Every local binding that would be in scope at the songplays statement of
lines 137–148, had execution reached it. -/
def logEnvAtSongplays : List String :=
  moduleEnv ++ ["spark", "input_data", "output_data", "log_data", "df",
    "users_table", "get_timestamp", "get_datetime", "time_table", "song_df",
    "join_table"]

/-- Spark's `withColumn` on a schema: appends the column when absent. -/
def sparkWithColumn (cols : List String) (c : String) : List String :=
  if c ∈ cols then cols else cols ++ [c]

/-- The log-dataframe columns `etl.py` itself references. -/
def logReferencedColumns : List String :=
  ["artist", "firstName", "gender", "lastName", "level", "location", "page",
   "sessionId", "song", "ts", "userAgent", "userId"]

/-- The columns of `df` at line 114, after `withColumn('timestamp', ...)`
(line 107) and `withColumn('date', ...)` (line 111). -/
def logColumnsAtTimeSelect : List String :=
  sparkWithColumn (sparkWithColumn logReferencedColumns "timestamp") "date"

/-- A non-song-play log record (`page = "Home"`), used as concrete input. -/
def homePageRow : LogRow :=
  ⟨"", "", "", "", "", "", "Home", 0, "", 0, "", ""⟩

/-! ### Theorems -/

/-- Helper: deduplication gives exactly one row per distinct element of the
underlying list. -/
theorem count_dedup_map {α β : Type} [DecidableEq α] [DecidableEq β]
    (f : α → β) (l : List α) (b : β) :
    ((l.map f).dedup).count b = if b ∈ l.map f then 1 else 0 :=
  List.count_dedup _ _

/-- C2: a log record whose `page` field is not `'NextSong'` is removed by the
filter of line 94, so it contributes no row to the users table nor to any
table derived from the filtered dataframe (the time and songplays derivations
of lines 105–148 both consume the filtered `df`). -/
theorem nonSongPlayContributesNothing (logs : List LogRow) (r : LogRow)
    (h : r.page ≠ "NextSong") (α : Type) (derive : List LogRow → α) :
    filterNextSong (r :: logs) = filterNextSong logs
    ∧ users_table (r :: logs) = users_table logs
    ∧ derive (filterNextSong (r :: logs)) = derive (filterNextSong logs) := by
  have hf : filterNextSong (r :: logs) = filterNextSong logs := by
    simp [filterNextSong, List.filter_cons, h]
  refine ⟨hf, ?_, by rw [hf]⟩
  unfold users_table
  rw [hf]

/-- Witness for C2 at the spec's scenario: a `page = "Home"` record yields
empty users output and leaves every derivation of the filtered records
unchanged. -/
theorem nonSongPlayContributesNothing_witness :
    filterNextSong [homePageRow] = filterNextSong []
    ∧ users_table [homePageRow] = users_table []
    ∧ users_table (filterNextSong [homePageRow]) = users_table (filterNextSong []) :=
  nonSongPlayContributesNothing [] homePageRow (by decide) (List UsersRow) users_table

/-- C3: the songs and artists tables (lines 48 and 61) each contain exactly
one row per distinct projected tuple of the input, and two structurally
identical input song records produce a single songs row. -/
theorem songsArtistsDedupExactlyOnce (df : List SongRow) (s : SongsRow)
    (a : ArtistsRow) (r : SongRow) :
    ((songs_table df).count s = if s ∈ df.map songsProj then 1 else 0)
    ∧ ((artists_table df).count a = if a ∈ df.map artistsProj then 1 else 0)
    ∧ (songs_table df).Nodup
    ∧ (artists_table df).Nodup
    ∧ songs_table [r, r] = [songsProj r] := by
  refine ⟨count_dedup_map _ _ _, count_dedup_map _ _ _,
    List.nodup_dedup _, List.nodup_dedup _, ?_⟩
  simp [songs_table, List.dedup_cons_of_mem]

/-- C6: the users table (line 97) is deduplicated on the full
(userId, firstName, lastName, gender, level) tuple: one row per distinct
tuple observed among the filtered records, so a user observed with two
distinct levels yields two rows. -/
theorem usersTableDedupFullTuple (logs : List LogRow) (u : UsersRow) :
    (users_table logs).Nodup
    ∧ ((users_table logs).count u =
        if u ∈ (filterNextSong logs).map usersProj then 1 else 0)
    ∧ (u ∈ users_table logs ↔ u ∈ (filterNextSong logs).map usersProj) := by
  exact ⟨List.nodup_dedup _, List.count_dedup _ _, List.mem_dedup⟩

/-- C7: every parquet write in the source uses `'overwrite'` mode, a repeated
overwrite of a destination replaces its prior contents entirely, and running
the pipeline's five writes twice with the same tables leaves the store
exactly as one run does. -/
theorem overwriteIdempotence {τ : Type} (t1 t2 t3 t4 t5 told : τ)
    (s : Store τ) (p : String) :
    (sourceWriteCalls.all (fun w => w.mode == "overwrite") = true)
    ∧ (overwriteWrite (overwriteWrite s p told) p t1 = overwriteWrite s p t1)
    ∧ (runWrites t1 t2 t3 t4 t5 (runWrites t1 t2 t3 t4 t5 s)
        = runWrites t1 t2 t3 t4 t5 s) := by
  refine ⟨by decide, ?_, ?_⟩
  · funext q
    simp only [overwriteWrite]
    split <;> rfl
  · funext q
    simp only [runWrites, overwriteWrite]
    split <;> (try rfl) <;> split <;> (try rfl) <;> split <;> (try rfl) <;>
      split <;> (try rfl) <;> split <;> rfl

/-- C8: `main` (lines 158–164) invokes the session bootstrap and then only
`process_log_data`; the `process_song_data` call is commented out, so the
song-catalog branch is never invoked. -/
theorem mainRunsOnlyLogBranch :
    mainRun.called = ["create_spark_session", "process_log_data"]
    ∧ "process_song_data" ∉ mainRun.called
    ∧ mainRun.halt = none := by decide

/-- C9: `process_song_data` halts at line 52 on the unbound name
`songs_tables`, before its first parquet write; `process_log_data` halts at
its first parquet write (line 103, the users table) on the unbound name
`output`; neither run writes any parquet destination. -/
theorem neitherBranchWrites :
    processSongDataRun.halt = some (4, "songs_tables")
    ∧ processSongDataRun.writes = []
    ∧ processLogDataRun.halt = some (6, "output")
    ∧ processLogDataRun.writes = []
    ∧ (processLogDataStmts.getD 6 ⟨[], [], [], none⟩).writesTable
        = some "users_table.parquet" := by decide

/-- C10: `process_song_data` reads from the fixed literal path `'song_data'`
(line 45), never from the glob built from `input_data` (line 42), so its
songs and artists tables are independent of the `input_data` argument. -/
theorem songBranchIgnoresInputData (readJson : String → List SongRow)
    (i1 i2 : String) :
    process_song_data_tables readJson i1 = process_song_data_tables readJson i2 := rfl

/-- C1 (code evaluated at the failing scenario): the log branch halts on the
unbound name `output` (line 103) before the join of line 135, and the
songplays destination is never written, so a matched play produces no
songplays row. -/
theorem matchedPlayNeverMaterialized :
    "songplays_table.parquet" ∉ processLogDataRun.writes
    ∧ processLogDataRun.halt = some (6, "output") := by decide

/-- C4 (code evaluated): the derivations of lines 107 and 111 add columns
`timestamp` and `date`, never `datetime`, so the `select('datetime')` of
line 114 names a nonexistent column; `dayofweek` (line 121) is not among the
imported module names; and execution has already halted at line 103, so the
time table is never derived. -/
theorem timeTableNeverDerived :
    "datetime" ∉ logColumnsAtTimeSelect
    ∧ "date" ∈ logColumnsAtTimeSelect
    ∧ "dayofweek" ∉ moduleEnv
    ∧ processLogDataRun.halt = some (6, "output") := by decide

/-- C5 (code evaluated): `monotonically_increasing_id` is not among the
imported module names, and even if execution reached the songplays statement
of lines 137–148 with every earlier binding in scope, that statement would
halt on it and the songplays destination would never be written, so no
songplay_id is ever assigned. -/
theorem songplayIdNeverAssigned :
    "monotonically_increasing_id" ∉ moduleEnv
    ∧ (runStmts logEnvAtSongplays 17 (processLogDataStmts.drop 17)).halt
        = some (17, "monotonically_increasing_id")
    ∧ (runStmts logEnvAtSongplays 17 (processLogDataStmts.drop 17)).writes = [] := by decide
